import Mathlib

/-
Verification of src/stat/betainv.go (package stat): the Beta CDF via a
modified-Lentz continued fraction, and the Beta inverse CDF via an
initial guess, a bisection pass, and a Newton-like refinement loop.

Modelling conventions:
* Go float64 values are modelled as exact rationals (ℚ).  Division by
  zero, which in Go produces ±Inf/NaN, is the total rational division
  (q / 0 = 0); every concrete trace below that touches a zero divisor is
  one where the final result agrees with the Go float semantics because
  the affected intermediate value is discarded before it can influence
  the returned value.
* The collaborators that betainv.go calls but does not define (Go
  math.Exp, math.Log, math.Pow, math.Sqrt, LnΓ from the repository, and
  Beta_PDF) are bundled in an explicit `Oracle` parameter.
* Go panics are modelled as `Except.error` carrying the panic message.
* The unbounded/capped Go loops are modelled by fuel-indexed recursion;
  the continued-fraction fuel is the maxIter cap of the source (10^9, whose
  exhaustion is the panic of the source), the refinement-loop fuel (100) is a
  strict upper bound on the passes its own `n > 64` guard allows (at most
  66), and the bisection fuel is a modelling bound on a loop that the
  source never actually enters (its brackets start out equal).
-/

set_option maxRecDepth 8000

namespace GoStat

/-- Oracle bundling the numerical collaborators that betainv.go uses but
does not define.  `exp`, `log`, `pow`, `sqrt` stand for Go math.Exp,
math.Log, math.Pow, math.Sqrt.  Modelled from the spec: `lnGamma` is the
external collaborator LnΓ supplying ln Γ(z), and `betaPDF` is the Beta
density evaluator Beta_PDF (a companion component defined elsewhere in
the repository, not in src/) to which bisect and Beta_PDF_At delegate;
`betaPDF α β` is the closure returned by Beta_PDF(α, β). -/
structure Oracle where
  exp : ℚ → ℚ
  log : ℚ → ℚ
  pow : ℚ → ℚ → ℚ
  sqrt : ℚ → ℚ
  lnGamma : ℚ → ℚ
  betaPDF : ℚ → ℚ → ℚ → ℚ

/-- Machine epsilon constant `eps` of betaContinuedFraction. -/
def eps : ℚ := 2.2204460492503131e-16

/-- Convergence accuracy `acc` of betaContinuedFraction. -/
def acc : ℚ := 1e-16

/-- Iteration cap `maxIter` of betaContinuedFraction. -/
def maxIter : Nat := 1000000000

/-- Relative tolerance `tol` of cdf_beta_Pinv. -/
def tol : ℚ := 1.4901161193847656e-08

/-- Boolean nonzero test used to instrument divisions: `nzb q` is true
exactly when the divisor q is nonzero. -/
def nzb (q : ℚ) : Bool := if q = 0 then false else true

/-- Result of the continued-fraction evaluation: `val` is the returned
value (or the panic on iteration-cap exhaustion), and `divSafe` records
whether every divisor encountered during the evaluation was nonzero. -/
structure CFOut where
  val : Except String ℚ
  divSafe : Bool

/-- Body of the for-loop of betaContinuedFraction (betainv.go).  `m` is
the Go loop index i converted to float64, `c`, `d`, `res` the running
Lentz state, `fuel` the remaining iterations of the maxIter-capped loop,
and `safe` the divisor instrumentation accumulated so far.  Each `if
... < eps then eps` is the clamp in the source of a small divisor. -/
def betaCFLoop (α β x qab qap qam : ℚ) :
    Nat → ℚ → ℚ → ℚ → ℚ → Bool → CFOut
  | 0, _, _, _, _, safe =>
      ⟨Except.error "betaContinuedFraction(): α or β too big, or maxIter too small",
        safe⟩
  | fuel+1, m, c, d, res, safe =>
      let m2 := 2 * m
      let den1 := (qam + m2) * (α + m2)
      let aa1 := m * (β - m) * x / den1
      let d1 := 1 + aa1 * d
      let d1c := if |d1| < eps then eps else d1
      let c1 := 1 + aa1 / c
      let c1c := if |c1| < eps then eps else c1
      let d1r := 1 / d1c
      let res1 := res * (d1r * c1c)
      let den2 := (α + m2) * (qap + m2)
      let aa2 := -(α + m) * (qab + m) * x / den2
      let d2 := 1 + aa2 * d1r
      let d2c := if |d2| < eps then eps else d2
      let c2 := 1 + aa2 / c1c
      let c2c := if |c2| < eps then eps else c2
      let d2r := 1 / d2c
      let del := d2r * c2c
      let res2 := res1 * del
      let safe2 := safe && (nzb den1 && nzb c && nzb d1c
                    && nzb den2 && nzb c1c && nzb d2c)
      if |del - 1| < acc then ⟨Except.ok res2, safe2⟩
      else betaCFLoop α β x qab qap qam fuel (m + 1) c2c d2r res2 safe2

/-- betaContinuedFraction(α, β, x) from betainv.go: modified Lentz
evaluation of the continued fraction of the regularized incomplete Beta
function, instrumented with the divisor-safety flag. -/
def betaContinuedFraction (α β x : ℚ) : CFOut :=
  let qab := α + β
  let qap := α + 1
  let qam := α - 1
  let c : ℚ := 1
  let d0 := 1 - qab * x / qap
  let d0c := if |d0| < eps then eps else d0
  let d0r := 1 / d0c
  let res := d0r
  let safe0 := nzb qap && nzb d0c
  betaCFLoop α β x qab qap qam maxIter 1 c d0r res safe0

/-- Beta_CDF(α, β) from betainv.go: returns the CDF evaluator closed over
α and β.  The normalization factor y is computed before the switch (as in
the source); the switch handles x = 0 and x = 1 first, then selects the
continued-fraction branch by comparing x with (α+1)/(α+β+2). -/
def Beta_CDF (O : Oracle) (α β : ℚ) : ℚ → Except String ℚ := fun x =>
  let y := O.exp (O.lnGamma (α + β) - O.lnGamma α - O.lnGamma β
            + α * O.log x + β * O.log (1 - x))
  if x = 0 then Except.ok 0
  else if x = 1 then Except.ok 1
  else if x < (α + 1) / (α + β + 2) then
    match (betaContinuedFraction α β x).val with
    | Except.ok cf => Except.ok (y * cf / α)
    | Except.error e => Except.error e
  else
    match (betaContinuedFraction β α (1 - x)).val with
    | Except.ok cf => Except.ok (1 - y * cf / β)
    | Except.error e => Except.error e

/-- Beta_CDF_At(α, β, x) from betainv.go: evaluates the CDF of the
Beta(α, β) distribution at x. -/
def Beta_CDF_At (O : Oracle) (α β x : ℚ) : Except String ℚ :=
  Beta_CDF O α β x

/-- Beta_PDF_At(α, β, x) from betainv.go: 0 at x = 0, 1 at x = 1,
otherwise delegates to the Beta_PDF closure. -/
def Beta_PDF_At (O : Oracle) (α β x : ℚ) : ℚ :=
  if x = 0 then 0
  else if x = 1 then 1
  else O.betaPDF α β x

/-- Body of the for-loop of bisect (betainv.go).  The loop condition
|x1 − x0| > xtol is re-checked before every pass; the Go switch returns x
when |px − p| < ptol and otherwise moves one bracket to x.  Note that the
source evaluates `cdf := Beta_PDF(a, b)` for its probe, i.e. the density,
not the CDF. -/
def bisectLoop (cdf : ℚ → ℚ) (p xtol ptol : ℚ) :
    Nat → ℚ → ℚ → ℚ → ℚ
  | 0, x, _, _ => x
  | fuel+1, x, x0, x1 =>
      if |x1 - x0| > xtol then
        let px := cdf x
        if |px - p| < ptol then x
        else
          let x0n := if px < p then x else x0
          let x1n := if px > p then x else x1
          bisectLoop cdf p xtol ptol fuel (0.5 * (x0n + x1n)) x0n x1n
      else x

/-- Fuel bound for the bisect loop (a modelling artifact: the Go loop is
unbounded, but as proved below it performs zero iterations whenever
xtol > 0, since both brackets start at 0). -/
def bisectFuel : Nat := 1000000

/-- bisect(x, p, a, b, xtol, ptol) from betainv.go.  The locals x0, x1
are zero-initialized (`var x0, x1, px float64`). -/
def bisect (O : Oracle) (x p a b xtol ptol : ℚ) : ℚ :=
  let cdf := O.betaPDF a b
  bisectLoop cdf p xtol ptol bisectFuel x 0 0

/-- The x-update of the refinement loop of cdf_beta_Pinv (betainv.go):
apply the step if x + step stays strictly inside (0,1), otherwise restart
from the geometric-mean fallback sqrt(x)·sqrt(mean). -/
def pinvUpdate (O : Oracle) (x step mean : ℚ) : ℚ :=
  if 0 < x + step ∧ x + step < 1 then x + step
  else O.sqrt x * O.sqrt mean

/-- Fuel bound for the refinement loop of cdf_beta_Pinv (a strict upper
bound on the at most 66 passes allowed by the source-code `n > 64`
guard, which increments n on every pass that does not break). -/
def pinvFuel : Nat := 100

/-- Body of the labelled for-loop of cdf_beta_Pinv (betainv.go): while
|step0| > 1e-11·x, compute the residual dP and density phi, break
returning x when dP = 0 or n > 64, otherwise take the damped Newton step
with quadratic correction, and — still inside the loop body — set the
sentinel x = 999 and break whenever |dP| > tol·p. -/
def pinvLoop (O : Oracle) (α β p mean : ℚ) :
    Nat → ℚ → ℚ → Nat → Except String ℚ
  | 0, x, _, _ => Except.ok x
  | fuel+1, x, step0, n =>
      if |step0| > 1e-11 * x then
        match Beta_CDF_At O α β x with
        | Except.error e => Except.error e
        | Except.ok cdfx =>
          let dP := p - cdfx
          let phi := Beta_PDF_At O α β x
          if dP = 0 ∨ n > 64 then Except.ok x
          else
            let lambda := dP / max (2 * |dP / x|) phi
            let step0n := lambda
            let step1 := -((α - 1) / x - (β - 1) / (1 - x)) * lambda * lambda / 2
            let step := if |step1| < |step0n| then step0n + step1
                        else step0n * (2 * |step0n / step1|)
            let xn := pinvUpdate O x step mean
            if |dP| > tol * p then Except.ok 999
            else pinvLoop O α β p mean fuel xn step0n (n + 1)
      else Except.ok x

/-- cdf_beta_Pinv(α, β, p) from betainv.go: initial guess (small-x series
for p < 0.1, else the mean), a coarse bisection pass with tolerances
0.01/0.01, then the Newton-like refinement loop seeded with
step0 = 999999 and n = 0. -/
def cdf_beta_Pinv (O : Oracle) (α β p : ℚ) : Except String ℚ :=
  let mean := α / (α + β)
  let x :=
    if p < 0.1 then
      let lg_ab := O.lnGamma (α + β)
      let lg_a := O.lnGamma α
      let lg_b := O.lnGamma β
      let lx := (O.log α + lg_a + lg_b - lg_ab + O.log p) / α
      let x0 :=
        if lx ≤ 0 then
          let x1 := O.exp lx
          x1 * O.pow (1 - x1) (-(β - 1) / α)
        else mean
      if x0 > mean then mean else x0
    else mean
  let xb := bisect O x p α β 0.01 0.01
  pinvLoop O α β p mean pinvFuel xb 999999 0

/-- BetaInv_CDF_For(α, β, p) from betainv.go: validation guards (each Go
panic modelled as an error), the p = 0 and p = 1 shortcuts, the p > 0.5
branch `res = 1 - cdf_beta_Pinv(1-p, β, α)` exactly as in the source, and
the direct call otherwise. -/
def BetaInv_CDF_For (O : Oracle) (α β p : ℚ) : Except String ℚ :=
  if p < 0 ∨ p > 1 then Except.error "p must be in range 0 < p < 1"
  else if α < 0 then Except.error "α < 0"
  else if β < 0 then Except.error "β < 0"
  else if p = 0 then Except.ok 0
  else if p = 1 then Except.ok 1
  else if p > 0.5 then
    match cdf_beta_Pinv O (1 - p) β α with
    | Except.ok r => Except.ok (1 - r)
    | Except.error e => Except.error e
  else cdf_beta_Pinv O α β p

/-- Concrete oracle instance used to evaluate the code on specific
inputs.  Each table entry is a rational stand-in for the value of the
real function at exactly the points the traces below touch, consistent
with the defining identities those traces rely on: ln Γ(1) = ln Γ(2) = 0,
exp(log t) = t, exp(a + b) = exp(a)·exp(b), pow(t, 0) = 1, the Beta(1,1)
density is constantly 1, and sqrt maps (0,1) into (0,1). -/
def O0 : Oracle where
  exp := fun q =>
    if q = -3 then 1/20
    else if q = -61/20 then 19/400
    else if q = -7/5 then 1/4
    else if q = -134321/42000 then 41/1000
    else 1
  log := fun q =>
    if q = 1 then 0
    else if q = 1/20 then -3
    else if q = 19/20 then -1/20
    else if q = 1/2 then -7/10
    else if q = 1/21 then -61/20
    else if q = 20/21 then -1/21
    else 0
  pow := fun b e => if e = 0 then 1 else b
  sqrt := fun q => (q + 1) / 2
  lnGamma := fun q =>
    if q = 21/20 then -7/250
    else if q = 1/20 then 297/100
    else 0
  betaPDF := fun a b x =>
    if a = 1 ∧ b = 1 then 1
    else if a = 1/20 ∧ b = 1 ∧ x = 1/21 then 9/10
    else 1

/-- Case form of the absolute value, used to evaluate it on concrete
rationals. -/
theorem abs_ite_q (q : ℚ) : |q| = if q < 0 then -q else q := by
  rcases lt_or_ge q 0 with h | h
  · rw [abs_of_neg h, if_pos h]
  · rw [abs_of_nonneg h, if_neg (not_lt.mpr h)]

/-- One-step unfolding of betaCFLoop at a successor fuel value. -/
theorem cfstep (α β x qab qap qam : ℚ) (fuel : Nat) (m c d res : ℚ) (safe : Bool) :
    betaCFLoop α β x qab qap qam (fuel + 1) m c d res safe =
      (let m2 := 2 * m
      let den1 := (qam + m2) * (α + m2)
      let aa1 := m * (β - m) * x / den1
      let d1 := 1 + aa1 * d
      let d1c := if |d1| < eps then eps else d1
      let c1 := 1 + aa1 / c
      let c1c := if |c1| < eps then eps else c1
      let d1r := 1 / d1c
      let res1 := res * (d1r * c1c)
      let den2 := (α + m2) * (qap + m2)
      let aa2 := -(α + m) * (qab + m) * x / den2
      let d2 := 1 + aa2 * d1r
      let d2c := if |d2| < eps then eps else d2
      let c2 := 1 + aa2 / c1c
      let c2c := if |c2| < eps then eps else c2
      let d2r := 1 / d2c
      let del := d2r * c2c
      let res2 := res1 * del
      let safe2 := safe && (nzb den1 && nzb c && nzb d1c
                    && nzb den2 && nzb c1c && nzb d2c)
      if |del - 1| < acc then ⟨Except.ok res2, safe2⟩
      else betaCFLoop α β x qab qap qam fuel (m + 1) c2c d2r res2 safe2) := rfl

/-- One-step unfolding of pinvLoop at a successor fuel value. -/
theorem pinvstep (O : Oracle) (α β p mean : ℚ) (fuel : Nat) (x step0 : ℚ) (n : Nat) :
    pinvLoop O α β p mean (fuel + 1) x step0 n =
      (if |step0| > 1e-11 * x then
        match Beta_CDF_At O α β x with
        | Except.error e => Except.error e
        | Except.ok cdfx =>
          let dP := p - cdfx
          let phi := Beta_PDF_At O α β x
          if dP = 0 ∨ n > 64 then Except.ok x
          else
            let lambda := dP / max (2 * |dP / x|) phi
            let step0n := lambda
            let step1 := -((α - 1) / x - (β - 1) / (1 - x)) * lambda * lambda / 2
            let step := if |step1| < |step0n| then step0n + step1
                        else step0n * (2 * |step0n / step1|)
            let xn := pinvUpdate O x step mean
            if |dP| > tol * p then Except.ok 999
            else pinvLoop O α β p mean fuel xn step0n (n + 1)
      else Except.ok x) := rfl

/-- The bisect loop performs no iteration when its entry condition
|x1 − x0| > xtol already fails. -/
theorem bisectLoop_noiter (cdf : ℚ → ℚ) (p xtol ptol x x0 x1 : ℚ)
    (h : ¬ |x1 - x0| > xtol) :
    ∀ fuel, bisectLoop cdf p xtol ptol fuel x x0 x1 = x := by
  intro fuel
  cases fuel with
  | zero => rfl
  | succ n => rw [bisectLoop, if_neg h]

/-- bisect returns its seed unchanged for every positive xtol: both
brackets are zero-initialized, so |x1 − x0| > xtol fails on entry. -/
theorem bisect_id (O : Oracle) (x p a b xtol ptol : ℚ) (h : 0 < xtol) :
    bisect O x p a b xtol ptol = x := by
  rw [bisect]
  exact bisectLoop_noiter _ _ _ _ _ _ _ (by simp; linarith) _

/-- eps is positive. -/
theorem eps_pos : (0:ℚ) < eps := by norm_num [eps]

/-- The eps-clamp leaves the absolute value at least eps. -/
theorem clamp_eps_abs (v : ℚ) : eps ≤ |if |v| < eps then eps else v| := by
  split
  · rw [abs_of_pos eps_pos]
  · next h => exact le_of_not_lt h

/-- A rational of absolute value at least eps is nonzero. -/
theorem ne_zero_of_eps_le {q : ℚ} (h : eps ≤ |q|) : q ≠ 0 := by
  intro h0
  rw [h0, abs_zero] at h
  exact absurd h (not_le.mpr eps_pos)

/-- nzb is true on nonzero rationals. -/
theorem nzb_of_ne {q : ℚ} (h : q ≠ 0) : nzb q = true := by simp [nzb, h]

/-- nzb is true on every eps-clamped value. -/
theorem nzb_clamp (v : ℚ) : nzb (if |v| < eps then eps else v) = true :=
  nzb_of_ne (ne_zero_of_eps_le (clamp_eps_abs v))

/-- Continued fraction at (1, 1, 1/2): converges on the first pass to 2. -/
theorem cf_1_1_half : (betaContinuedFraction 1 1 (1/2)).val = Except.ok 2 := by
  unfold betaContinuedFraction
  rw [show maxIter = 999999999 + 1 from rfl, cfstep]
  norm_num [eps, acc, abs_ite_q]

/-- Continued fraction at (1, 1, 1/20): converges on the first pass to 20/19. -/
theorem cf_1_1_20th : (betaContinuedFraction 1 1 (1/20)).val = Except.ok (20/19) := by
  unfold betaContinuedFraction
  rw [show maxIter = 999999999 + 1 from rfl, cfstep]
  norm_num [eps, acc, abs_ite_q]

/-- Continued fraction at (1/20, 1, 1/21): converges on the first pass to 21/20. -/
theorem cf_a05 : (betaContinuedFraction (1/20) 1 (1/21)).val = Except.ok (21/20) := by
  unfold betaContinuedFraction
  rw [show maxIter = 999999999 + 1 from rfl, cfstep]
  norm_num [eps, acc, abs_ite_q]

/-- Beta(1,1) CDF at 1/2 evaluates to 1/2 (via the symmetric branch). -/
theorem cdf_1_1_half : Beta_CDF_At O0 1 1 (1/2) = Except.ok (1/2) := by
  rw [Beta_CDF_At, Beta_CDF]
  norm_num [cf_1_1_half, O0]

/-- Beta(1,1) CDF at 1/20 evaluates to 1/20 (via the direct branch). -/
theorem cdf_1_1_20th : Beta_CDF_At O0 1 1 (1/20) = Except.ok (1/20) := by
  rw [Beta_CDF_At, Beta_CDF]
  norm_num [cf_1_1_20th, O0]

/-- Beta(1/20, 1) CDF at 1/21 evaluates to 861/1000 under the oracle
tables (the rational stand-in for (1/21)^(1/20) ≈ 0.8588). -/
theorem cdf_a05 : Beta_CDF_At O0 (1/20) 1 (1/21) = Except.ok (861/1000) := by
  rw [Beta_CDF_At, Beta_CDF]
  norm_num [cf_a05, O0]

/-- Beta(0,1) CDF at 0 evaluates to 0 through the x = 0 branch. -/
theorem cdf_0_1_0 : Beta_CDF_At O0 0 1 0 = Except.ok 0 := by
  rw [Beta_CDF_At, Beta_CDF]
  norm_num

/-- Pointwise table value: ln Γ(1) = 0. -/
theorem O0_lnGamma_one : O0.lnGamma 1 = 0 := by norm_num [O0]

/-- Pointwise table value: ln Γ(2) = 0. -/
theorem O0_lnGamma_two : O0.lnGamma 2 = 0 := by norm_num [O0]

/-- Pointwise table value: log 1 = 0. -/
theorem O0_log_one : O0.log 1 = 0 := by norm_num [O0]

/-- Pointwise table value: log (1/20) = -3 (stand-in for ln 0.05 ≈ -2.9957). -/
theorem O0_log_20th : O0.log (1/20) = -3 := by norm_num [O0]

/-- Pointwise table value: exp (-3) = 1/20 (consistent with log (1/20) = -3). -/
theorem O0_exp_neg3 : O0.exp (-3) = 1/20 := by norm_num [O0]

/-- Pointwise table value: pow(b, 0) = 1 for every base. -/
theorem O0_pow_zero (b : ℚ) : O0.pow b 0 = 1 := by norm_num [O0]

/-- cdf_beta_Pinv at (1, 1, 3/10): the first refinement pass computes the
exact Newton step to 3/10, but the in-loop convergence check fires
(|dP| = 1/5 > tol·p) and the sentinel 999 is returned. -/
theorem pinv_1_1_p3 : cdf_beta_Pinv O0 1 1 (3/10) = Except.ok 999 := by
  rw [cdf_beta_Pinv]
  norm_num [bisect_id O0]
  rw [show pinvFuel = 99 + 1 from rfl, pinvstep, cdf_1_1_half]
  norm_num [Beta_PDF_At, O0, tol, abs_ite_q, max_def, pinvUpdate]

/-- cdf_beta_Pinv at (1, 1, 2/5): as above, sentinel 999. -/
theorem pinv_1_1_p4 : cdf_beta_Pinv O0 1 1 (2/5) = Except.ok 999 := by
  rw [cdf_beta_Pinv]
  norm_num [bisect_id O0]
  rw [show pinvFuel = 99 + 1 from rfl, pinvstep, cdf_1_1_half]
  norm_num [Beta_PDF_At, O0, tol, abs_ite_q, max_def, pinvUpdate]

/-- cdf_beta_Pinv at (1/20, 1, 1): the argument pattern produced by the
p > 0.5 branch of BetaInv_CDF_For at (1, 1, 19/20), where the probability
19/20 lands in the α slot.  Returns the sentinel 999. -/
theorem pinv_lhs : cdf_beta_Pinv O0 (1/20) 1 1 = Except.ok 999 := by
  rw [cdf_beta_Pinv]
  norm_num [bisect_id O0]
  rw [show pinvFuel = 99 + 1 from rfl, pinvstep, cdf_a05]
  norm_num [Beta_PDF_At, O0, tol, abs_ite_q, max_def, pinvUpdate]

/-- cdf_beta_Pinv at (1, 1, 1/20): the small-x initial guess is exact
(dP = 0 on the first pass), so the solver returns 1/20. -/
theorem pinv_rhs : cdf_beta_Pinv O0 1 1 (1/20) = Except.ok (1/20) := by
  rw [cdf_beta_Pinv]
  norm_num [O0_lnGamma_one, O0_lnGamma_two, O0_log_one, O0_log_20th,
    O0_exp_neg3, O0_pow_zero, bisect_id O0]
  rw [show pinvFuel = 99 + 1 from rfl, pinvstep, cdf_1_1_20th]
  norm_num

/-- cdf_beta_Pinv at (0, 1, 1/2): α = 0 passes validation upstream; the
run reaches the in-loop convergence check and returns the sentinel 999. -/
theorem pinv_c6 : cdf_beta_Pinv O0 0 1 (1/2) = Except.ok 999 := by
  rw [cdf_beta_Pinv]
  norm_num [bisect_id O0]
  rw [show pinvFuel = 99 + 1 from rfl, pinvstep, cdf_0_1_0]
  norm_num [Beta_PDF_At, O0, tol, abs_ite_q, max_def, pinvUpdate]

/-- The divSafe flag of an if-then-else is true when it is true in both
branches. -/
theorem divSafe_ite (cond : Prop) [inst : Decidable cond] (a b : CFOut)
    (ha : a.divSafe = true) (hb : b.divSafe = true) :
    (if cond then a else b).divSafe = true := by
  by_cases h : cond
  · rw [if_pos h]; exact ha
  · rw [if_neg h]; exact hb

/-- For positive α (with qap = α + 1 and qam = α - 1 as set up by
betaContinuedFraction), every divisor met by the loop is nonzero: the
clamped values are at least eps in absolute value, and the index
denominators (α - 1 + 2m)(α + 2m) and (α + 2m)(α + 1 + 2m) are positive
for every loop index m ≥ 1. -/
theorem betaCFLoop_divSafe (α β x qab : ℚ) (hα : 0 < α) :
    ∀ fuel (m c d res : ℚ), 1 ≤ m → eps ≤ |c| →
      (betaCFLoop α β x qab (α + 1) (α - 1) fuel m c d res true).divSafe = true := by
  intro fuel
  induction fuel with
  | zero => intro m c d res hm hc; rfl
  | succ n ih =>
      intro m c d res hm hc
      have hden1 : (α - 1 + 2 * m) * (α + 2 * m) ≠ 0 :=
        ne_of_gt (mul_pos (by nlinarith) (by nlinarith))
      have hden2 : (α + 2 * m) * (α + 1 + 2 * m) ≠ 0 :=
        ne_of_gt (mul_pos (by nlinarith) (by nlinarith))
      rw [cfstep]
      simp only [nzb_clamp, nzb_of_ne hden1, nzb_of_ne hden2,
        nzb_of_ne (ne_zero_of_eps_le hc), Bool.true_and, Bool.and_true]
      exact divSafe_ite _ _ _ rfl (ih (m + 1) _ _ _ (by linarith) (clamp_eps_abs _))

/-- C1: the claim states that for 0.5 < p < 1 the entry point returns
1 − cdf_beta_Pinv(β, α, 1−p) (parameters swapped, solved at probability
1−p).  The source instead calls cdf_beta_Pinv(1−p, β, α), passing the
probability 1−p in the α slot and the shape α in the p slot.  At
(α, β, p) = (1, 1, 19/20) the code path returns 1 − 999 = −998, while the
formula stated by the claim evaluates to 1 − 1/20 = 19/20. -/
theorem C1_pinv_call_transposes_probability_and_shape :
    BetaInv_CDF_For O0 1 1 (19/20) = Except.ok (-998) ∧
    Except.map (fun r => 1 - r) (cdf_beta_Pinv O0 1 1 (1 - 19/20)) =
      Except.ok (19/20) := by
  constructor
  · rw [BetaInv_CDF_For]
    norm_num [pinv_lhs]
  · norm_num [pinv_rhs, Except.map]

/-- C2: the claim states BetaInv_CDF_For(1, 1, p) = p for all p in [0,1].
At p = 3/10 the code returns the sentinel 999 instead of 3/10, because
the in-loop convergence check fires on the first refinement pass. -/
theorem C2_uniform_quantile_returns_sentinel :
    BetaInv_CDF_For O0 1 1 (3/10) = Except.ok 999 ∧ (999 : ℚ) ≠ 3/10 := by
  constructor
  · rw [BetaInv_CDF_For]
    norm_num [pinv_1_1_p3]
  · norm_num

/-- C3: the claim states that a numeric (non-error) result of
BetaInv_CDF_For on a valid input always lies in [0,1] and the sentinel
999 is never silently returned.  At the valid input (1, 1, 2/5) the code
silently returns Except.ok 999, and 999 is not at most 1. -/
theorem C3_silently_returns_sentinel_out_of_range :
    BetaInv_CDF_For O0 1 1 (2/5) = Except.ok 999 ∧ ¬ ((999 : ℚ) ≤ 1) := by
  constructor
  · rw [BetaInv_CDF_For]
    norm_num [pinv_1_1_p4]
  · norm_num

/-- C4: the claim states the refinement loop continues while
|dP| > tol·p and fewer than 64 iterations were used, signalling 999 only
after 64 iterations.  At (1, 1, 1/4) the first pass computes the residual
dP = 1/4 − CDF(1/2) = −1/4 with |dP| > tol·(1/4), and the loop
immediately assigns the sentinel 999 and breaks after this single pass
(the check sits inside the loop body, not after the loop). -/
theorem C4_failure_signaled_on_first_unconverged_pass :
    cdf_beta_Pinv O0 1 1 (1/4) = Except.ok 999 ∧
    Beta_CDF_At O0 1 1 (1/2) = Except.ok (1/2) ∧
    |(1/4 : ℚ) - 1/2| > tol * (1/4) := by
  refine ⟨?_, cdf_1_1_half, by norm_num [tol, abs_ite_q]⟩
  rw [cdf_beta_Pinv]
  norm_num [bisect_id O0]
  rw [show pinvFuel = 99 + 1 from rfl, pinvstep, cdf_1_1_half]
  norm_num [Beta_PDF_At, O0, tol, abs_ite_q, max_def, pinvUpdate]

/-- C5: bisect returns its seed x unchanged for every seed, target,
shape parameters, ptol, and xtol > 0: both brackets x0 and x1 are
initialized to 0, so the loop condition |x1 − x0| > xtol fails on entry
and the loop body never executes. -/
theorem C5_bisect_returns_seed (O : Oracle) (x p a b xtol ptol : ℚ)
    (h : 0 < xtol) : bisect O x p a b xtol ptol = x :=
  bisect_id O x p a b xtol ptol h

/-- C5 witness: concrete instance at seed 2/5 with xtol = 1/100. -/
theorem C5_bisect_returns_seed_witness :
    (0 : ℚ) < 1/100 ∧ bisect O0 (2/5) (3/10) 2 3 (1/100) 42 = 2/5 :=
  ⟨by norm_num, C5_bisect_returns_seed O0 (2/5) (3/10) 2 3 (1/100) 42 (by norm_num)⟩

/-- C6 counterexample: the claim states every α ≤ 0 (or β ≤ 0) is
rejected with a domain error, but the source only rejects α < 0 and
β < 0: at α = 0, β = 1, p = 1/2 validation passes and a numeric result
(the sentinel 999) is produced instead of a domain error. -/
theorem C6_alpha_zero_not_rejected :
    BetaInv_CDF_For O0 0 1 (1/2) = Except.ok 999 := by
  rw [BetaInv_CDF_For]
  norm_num [pinv_c6]

/-- C6 amended: BetaInv_CDF_For signals a domain error for every α < 0
or β < 0 (α = 0 and β = 0 pass validation). -/
theorem C6_negative_shape_rejected (O : Oracle) (α β p : ℚ)
    (h : α < 0 ∨ β < 0) :
    ∃ msg, BetaInv_CDF_For O α β p = Except.error msg := by
  rw [BetaInv_CDF_For]
  by_cases hp : p < 0 ∨ p > 1
  · rw [if_pos hp]; exact ⟨_, rfl⟩
  · rw [if_neg hp]
    by_cases ha : α < 0
    · rw [if_pos ha]; exact ⟨_, rfl⟩
    · rw [if_neg ha]
      rcases h with h | h
      · exact absurd h ha
      · rw [if_pos h]; exact ⟨_, rfl⟩

/-- C6 witness: the amended statement at the concrete input (−1, 1, 1/2). -/
theorem C6_negative_shape_rejected_witness :
    ∃ msg, BetaInv_CDF_For O0 (-1) 1 (1/2) = Except.error msg :=
  C6_negative_shape_rejected O0 (-1) 1 (1/2) (Or.inl (by norm_num))

/-- C8: for positive shape parameters the CDF evaluator returns exactly 0
at x = 0 and exactly 1 at x = 1; these branches are taken before any
continued-fraction work. -/
theorem C8_cdf_boundary_values (O : Oracle) (α β : ℚ)
    (hα : 0 < α) (hβ : 0 < β) :
    Beta_CDF_At O α β 0 = Except.ok 0 ∧ Beta_CDF_At O α β 1 = Except.ok 1 := by
  constructor
  · rw [Beta_CDF_At, Beta_CDF]
    norm_num
  · rw [Beta_CDF_At, Beta_CDF]
    norm_num

/-- C8 witness: boundary values at α = 2, β = 3. -/
theorem C8_cdf_boundary_values_witness :
    (0 : ℚ) < 2 ∧ (0 : ℚ) < 3 ∧
    Beta_CDF_At O0 2 3 0 = Except.ok 0 ∧ Beta_CDF_At O0 2 3 1 = Except.ok 1 :=
  ⟨by norm_num, by norm_num, (C8_cdf_boundary_values O0 2 3 (by norm_num) (by norm_num)).1,
    (C8_cdf_boundary_values O0 2 3 (by norm_num) (by norm_num)).2⟩

/-- C9: the x-update of the refinement loop keeps the iterate strictly
inside (0,1): the Newton step is applied exactly when 0 < x + step < 1,
and otherwise x is reset to sqrt(x)·sqrt(mean), which lies in (0,1)
whenever sqrt behaves like the real square root at x and mean (mapping
points of (0,1) into (0,1)). -/
theorem C9_refinement_iterate_stays_inside_unit_interval (O : Oracle)
    (x step mean : ℚ) (hx : 0 < x ∧ x < 1) (hmean : 0 < mean ∧ mean < 1)
    (hsx : 0 < O.sqrt x ∧ O.sqrt x < 1)
    (hsm : 0 < O.sqrt mean ∧ O.sqrt mean < 1) :
    (0 < pinvUpdate O x step mean ∧ pinvUpdate O x step mean < 1) ∧
    ((0 < x + step ∧ x + step < 1) → pinvUpdate O x step mean = x + step) ∧
    (¬ (0 < x + step ∧ x + step < 1) →
      pinvUpdate O x step mean = O.sqrt x * O.sqrt mean) := by
  rw [pinvUpdate]
  by_cases h : 0 < x + step ∧ x + step < 1
  · rw [if_pos h]
    exact ⟨h, fun _ => rfl, fun hc => absurd h hc⟩
  · rw [if_neg h]
    refine ⟨⟨mul_pos hsx.1 hsm.1, ?_⟩, fun hc => absurd hc h, fun _ => rfl⟩
    nlinarith [hsx.1, hsx.2, hsm.1, hsm.2]

/-- C9 witness: at x = 1/2, step = 2 (stepping outside), mean = 1/3, the
fallback sqrt(1/2)·sqrt(1/3) = (3/4)·(2/3) = 1/2 lies in (0,1). -/
theorem C9_refinement_iterate_stays_inside_unit_interval_witness :
    ((0 : ℚ) < 1/2 ∧ (1/2 : ℚ) < 1) ∧ ((0 : ℚ) < 1/3 ∧ (1/3 : ℚ) < 1) ∧
    (0 < O0.sqrt (1/2) ∧ O0.sqrt (1/2) < 1) ∧
    (0 < O0.sqrt (1/3) ∧ O0.sqrt (1/3) < 1) ∧
    (0 < pinvUpdate O0 (1/2) 2 (1/3) ∧ pinvUpdate O0 (1/2) 2 (1/3) < 1) :=
  ⟨by norm_num, by norm_num, by norm_num [O0], by norm_num [O0],
    (C9_refinement_iterate_stays_inside_unit_interval O0 (1/2) 2 (1/3)
      (by norm_num) (by norm_num) (by norm_num [O0]) (by norm_num [O0])).1⟩

/-- C10 counterexample: the claim states that no division by zero occurs
for all inputs, but only the 1/d and aa/c divisions are eps-guarded.  At
α = −1 the very first divisor qap = α + 1 is zero (and at m = 1 the index
denominator (qam + 2)(α + 2) is zero too), so the instrumented run
records a zero divisor. -/
theorem C10_division_by_zero_at_negative_alpha :
    (betaContinuedFraction (-1) 1 (1/2)).divSafe = false := by
  unfold betaContinuedFraction
  rw [show maxIter = 999999999 + 1 from rfl, cfstep]
  norm_num [eps, acc, abs_ite_q, nzb]

/-- C10 amended: for every α > 0 (and arbitrary β, x) no division by zero
occurs anywhere in betaContinuedFraction: the 1/d and aa/c divisors are
eps-clamped, and all remaining divisors are strictly positive. -/
theorem C10_all_divisors_nonzero_for_positive_alpha (α β x : ℚ)
    (hα : 0 < α) : (betaContinuedFraction α β x).divSafe = true := by
  unfold betaContinuedFraction
  have hqap : (α + 1) ≠ 0 := ne_of_gt (by linarith)
  simp only [nzb_clamp, nzb_of_ne hqap, Bool.true_and, Bool.and_true]
  exact betaCFLoop_divSafe α β x (α + β) hα maxIter 1 _ _ _ (le_refl 1)
    (by rw [abs_one]; norm_num [eps])

/-- C10 witness: the amended statement at α = 2, β = 1, x = 1/2. -/
theorem C10_all_divisors_nonzero_for_positive_alpha_witness :
    (0 : ℚ) < 2 ∧ (betaContinuedFraction 2 1 (1/2)).divSafe = true :=
  ⟨by norm_num, C10_all_divisors_nonzero_for_positive_alpha 2 1 (1/2) (by norm_num)⟩

end GoStat
